import Mathlib

/-
Verification development for the heyman repository (github.com/alecf/heyman).

The Go source is shallowly embedded: pure functions become Lean functions,
the on-disk cache becomes an explicit association list from file key to file
content, wall-clock time is passed explicitly as an integer, and the SHA-256
digest from crypto/sha256 (an external cryptographic library call) is a
function parameter of the key generator. Strings are modelled by Lean
strings; the handful of Go strings-package operations the source uses are
reimplemented structurally below so that every definition evaluates by
kernel reduction.
-/

namespace Heyman

/-- goIsSpace models unicode.IsSpace restricted to the ASCII space class
used by strings.TrimSpace (space, tab, newline, vertical tab, form feed,
carriage return). -/
def goIsSpace (c : Char) : Bool :=
  c = ' ' || c = '\t' || c = '\n' || c = '\x0b' || c = '\x0c' || c = '\r'

/-- goTrimSpace models strings.TrimSpace: remove leading and trailing
whitespace. -/
def goTrimSpace (s : String) : String :=
  ⟨((s.data.dropWhile goIsSpace).reverse.dropWhile goIsSpace).reverse⟩

/-- splitOnChar splits a character list at every occurrence of the
separator, keeping empty segments, exactly like strings.Split with a
one-character separator. -/
def splitOnChar (sep : Char) : List Char → List (List Char)
  | [] => [[]]
  | c :: rest =>
    let r := splitOnChar sep rest
    if c = sep then [] :: r
    else
      match r with
      | [] => [[c]]
      | h :: t => (c :: h) :: t

/-- goSplitNewline models strings.Split(s, "\n"). -/
def goSplitNewline (s : String) : List String :=
  (splitOnChar '\n' s.data).map fun l => ⟨l⟩

/-- goHasPre models strings.HasPrefix(s, p). -/
def goHasPre (s p : String) : Bool :=
  List.isPrefixOf p.data s.data

/-- goHasSuf models strings.HasSuffix(s, p). -/
def goHasSuf (s p : String) : Bool :=
  List.isSuffixOf p.data s.data

/-- hasSubList decides whether the needle occurs as a contiguous sublist
of the haystack. -/
def hasSubList (needle : List Char) : List Char → Bool
  | [] => needle.isEmpty
  | d :: ds => List.isPrefixOf needle (d :: ds) || hasSubList needle ds

/-- goContains models strings.Contains(s, sub). -/
def goContains (s sub : String) : Bool :=
  hasSubList sub.data s.data

/-- goTrimPre models strings.TrimPrefix: remove one leading occurrence of
p when present. -/
def goTrimPre (s p : String) : String :=
  if goHasPre s p then ⟨s.data.drop p.data.length⟩ else s

/-- goTrimSuf models strings.TrimSuffix: remove one trailing occurrence of
p when present. -/
def goTrimSuf (s p : String) : String :=
  if goHasSuf s p then ⟨s.data.take (s.data.length - p.data.length)⟩ else s

/-- firstWhitespaceToken formalises the phrase first whitespace-delimited
token (the head of strings.Fields): the first maximal run of non-space
characters. -/
def firstWhitespaceToken (s : String) : String :=
  ⟨(s.data.dropWhile goIsSpace).takeWhile (fun c => !goIsSpace c)⟩

/-- strExt recovers string equality from equality of the underlying
character lists. -/
theorem strExt {s t : String} (h : s.data = t.data) : s = t := by
  cases s with
  | mk d =>
    cases t with
    | mk e => exact congrArg String.mk h

/-- strDataAppend relates string append with list append. -/
theorem strDataAppend (s t : String) : (s ++ t).data = s.data ++ t.data := rfl

/-
Embedding of internal/llm/provider.go: the request, response and stream
chunk shapes. Go float64 sampling temperature is modelled as a rational
number; Go int as Int.
-/

/-- QueryRequest embeds llm.QueryRequest from internal/llm/provider.go. -/
structure QueryRequest where
  Model : String
  SystemPrompt : String
  UserPrompt : String
  MaxTokens : Int
  Temperature : ℚ
  ContextWindow : Int
  StopSequences : List String
deriving Repr

/-- QueryResponse embeds llm.QueryResponse from internal/llm/provider.go. -/
structure QueryResponse where
  Content : String
  TokensInput : Int
  TokensOutput : Int
  Model : String
  Provider : String
  Cached : Bool
deriving DecidableEq, Repr

/-- StreamChunk embeds llm.StreamChunk from internal/llm/provider.go. -/
structure StreamChunk where
  Content : String
  IsComplete : Bool
  TokensInput : Int
  TokensOutput : Int
deriving DecidableEq, Repr

/-
Embedding of the response parser (package parser). The Go error value in
ParsedResponse is modelled as an optional message string.
-/

/-- ParsedResponse embeds parser.ParsedResponse. -/
structure ParsedResponse where
  Command : String
  Explanation : String
  Valid : Bool
  Error : Option String
deriving DecidableEq, Repr

/-- Parser embeds parser.Parser: the expected tool name and the mode flag. -/
structure Parser where
  commandName : String
  explainMode : Bool
deriving DecidableEq, Repr

/-- refusalSentinel is the fixed refusal phrase tested with
strings.Contains in both parse modes. -/
def refusalSentinel : String := "cannot find this information in the man page"

/-- fenceOpenMatch decides whether a line (without its trailing newline)
is matched by the Go regular expression anchored at line start: three
backticks followed by zero or more lowercase letters and then the line
end. Such a line, together with its newline, is deleted by the first
replacement in stripMarkdownCodeBlocks. -/
def fenceOpenMatch (line : String) : Bool :=
  goHasPre line "```" && (line.data.drop 3).all fun c => 'a' ≤ c && c ≤ 'z'

/-- rebuildDropOpens reassembles the newline-separated parts of a string,
deleting every part except the last that fenceOpenMatch matches, together
with the newline that followed it. This is the effect of replacing every
match of the multiline pattern open-fence-line-plus-newline with the empty
string. -/
def rebuildDropOpens : List String → String
  | [] => ""
  | [last] => last
  | p :: rest => (if fenceOpenMatch p then "" else p ++ "\n") ++ rebuildDropOpens rest

/-- removeFenceOpens models the first regexp replacement in
stripMarkdownCodeBlocks. -/
def removeFenceOpens (s : String) : String :=
  rebuildDropOpens (goSplitNewline s)

/-- removeFenceCloses models the second regexp replacement in
stripMarkdownCodeBlocks: every newline immediately followed by a line
consisting exactly of three backticks is deleted together with that line. -/
def removeFenceCloses (s : String) : String :=
  match goSplitNewline s with
  | [] => ""
  | p :: rest =>
    p ++ String.join (rest.map fun q => if q == "```" then "" else "\n" ++ q)

/-- stripMarkdownCodeBlocks embeds parser.stripMarkdownCodeBlocks: the two
regexp replacements, then TrimPrefix and TrimSuffix of one backtick, then
TrimSpace. -/
def stripMarkdownCodeBlocks (s : String) : String :=
  let s1 := removeFenceOpens s
  let s2 := removeFenceCloses s1
  let s3 := goTrimPre s2 "`"
  let s4 := goTrimSuf s3 "`"
  goTrimSpace s4

/-- parseDefaultMode embeds Parser.parseDefaultMode (command-only mode):
refusal check, markdown stripping, whole-response prefix check, then for
multi-line responses a scan for the first non-empty trimmed line that
starts with the command name. -/
def parseDefaultMode (p : Parser) (response : String) : ParsedResponse :=
  if goContains response refusalSentinel then
    ⟨"", "", false, some "information not found in man page"⟩
  else
    let response1 := stripMarkdownCodeBlocks response
    let response2 := goTrimSpace response1
    if !goHasPre response2 p.commandName then
      ⟨"", "", false, some ("response does not start with command " ++ p.commandName)⟩
    else
      let lines := goSplitNewline response2
      if lines.length > 1 then
        match (lines.map goTrimSpace).find? (fun l => l != "" && goHasPre l p.commandName) with
        | some line => ⟨line, "", true, none⟩
        | none => ⟨"", "", false, some "response contains multiple lines without valid command"⟩
      else
        ⟨response2, "", true, none⟩

/-- findCmdLine embeds the first loop of Parser.parseExplainMode: walk the
lines, skip empty ones after trimming, strip markdown per line, and stop
at the first line that starts with the command name, recording the index
after it as the start of the explanation. -/
def findCmdLine (cmd : String) : List String → Nat → Option (String × Nat)
  | [], _ => none
  | l :: rest, i =>
    let t := goTrimSpace l
    if t == "" then findCmdLine cmd rest (i + 1)
    else
      let t2 := goTrimSpace (stripMarkdownCodeBlocks t)
      if goHasPre t2 cmd then some (t2, i + 1) else findCmdLine cmd rest (i + 1)

/-- parseExplainMode embeds Parser.parseExplainMode: refusal check, find
the command line, then join the remaining non-empty trimmed lines into the
explanation. -/
def parseExplainMode (p : Parser) (response : String) : ParsedResponse :=
  if goContains response refusalSentinel then
    ⟨"", "", false, some "information not found in man page"⟩
  else
    let lines := goSplitNewline response
    if lines.length = 0 then
      ⟨"", "", false, some "empty response"⟩
    else
      match findCmdLine p.commandName lines 0 with
      | none =>
        ⟨"", "", false, some ("no command found in response, expected line starting with " ++ p.commandName)⟩
      | some (command, explanationStart) =>
        let explanationLines := ((lines.drop explanationStart).map goTrimSpace).filter fun l => !(l == "")
        ⟨command, String.intercalate "\n" explanationLines, true, none⟩

/-- Parse embeds Parser.Parse: trim, then dispatch on the mode flag. -/
def Parser.Parse (p : Parser) (response : String) : ParsedResponse :=
  let response := goTrimSpace response
  if p.explainMode then parseExplainMode p response else parseDefaultMode p response

/-
Embedding of internal/cache/key.go. GenerateKey in Go is the lowercase hex
rendering of the SHA-256 digest of the joined input. The digest
(crypto/sha256, an external cryptographic library) is abstracted as the
function parameter hash; GenerateKeyInput is the exact pre-hash encoding
produced by fmt.Sprintf with three fields joined by colons.
-/

/-- GenerateKeyInput is the digest input of cache.GenerateKey: the tool
name, question and model id joined with the colon delimiter. -/
def GenerateKeyInput (command question model : String) : String :=
  command ++ ":" ++ question ++ ":" ++ model

/-- GenerateKey embeds cache.GenerateKey with the SHA-256 hex digest
abstracted as the parameter hash. -/
def GenerateKey (hash : String → String) (command question model : String) : String :=
  hash (GenerateKeyInput command question model)

/-- Entry embeds cache.Entry; the Response pointer is an Option and the
two time.Time fields are integer timestamps in seconds. -/
structure Entry where
  Key : String
  Command : String
  Question : String
  Model : String
  Response : Option QueryResponse
  CreatedAt : Int
  AccessedAt : Int
  AccessCount : Int
deriving DecidableEq, Repr

/-- FileContent models the bytes of one cache file as json.Unmarshal sees
them: either structurally invalid bytes or a well-formed serialized entry. -/
inductive FileContent where
  | corrupt
  | good (e : Entry)
deriving DecidableEq, Repr

/-- Store models the cache directory: an association list from file key
(the fingerprint, without the .json suffix) to file content. -/
abbrev Store := List (String × FileContent)

/-- lookupFile models os.ReadFile on the entry path: the content of the
first record with the given key, when one exists. -/
def lookupFile : Store → String → Option FileContent
  | [], _ => none
  | (k2, v) :: rest, k => if k2 == k then some v else lookupFile rest k

/-- removeFile models os.Remove on the entry path. -/
def removeFile (st : Store) (k : String) : Store :=
  st.filter fun p => !(p.1 == k)

/-- setFile models os.WriteFile on the entry path, overwriting any
previous content. -/
def setFile (st : Store) (k : String) (v : FileContent) : Store :=
  (k, v) :: removeFile st k

/-- Cache embeds cache.Cache; the cache directory is implicit in Store. -/
structure Cache where
  maxAgeDays : Int
deriving DecidableEq, Repr

/-- isExpired embeds Cache.isExpired with time in seconds: a non-positive
maximum age never expires, otherwise the entry is expired when the current
time is strictly after creation plus maxAgeDays of 24 hours. -/
def Cache.isExpired (c : Cache) (createdAt now : Int) : Bool :=
  if c.maxAgeDays ≤ 0 then false
  else decide (now > createdAt + c.maxAgeDays * 86400)

/-- saveEntry embeds Cache.saveEntry: marshal the entry and write it at
its key. -/
def saveEntry (st : Store) (entry : Entry) : Store :=
  setFile st entry.Key (FileContent.good entry)

/-- Get embeds Cache.Get: compute the fingerprint, read the file (a read
failure is a miss), unmarshal (a decode failure is a miss with no file
removal), delete expired entries and entries with a nil response, update
access metadata, and mark the returned response as cached. Returns the
response option together with the updated store. -/
def Cache.Get (hash : String → String) (c : Cache) (st : Store)
    (command question model : String) (now : Int) : Option QueryResponse × Store :=
  let key := GenerateKey hash command question model
  match lookupFile st key with
  | none => (none, st)
  | some FileContent.corrupt => (none, st)
  | some (FileContent.good entry) =>
    if c.isExpired entry.CreatedAt now then
      (none, removeFile st key)
    else
      match entry.Response with
      | none => (none, removeFile st key)
      | some response =>
        let entry2 := { entry with AccessedAt := now, AccessCount := entry.AccessCount + 1 }
        let st2 := saveEntry st entry2
        (some { response with Cached := true }, st2)

/-- Set embeds Cache.Set: build a fresh entry with access count one and
both timestamps at the write time, then save it. -/
def Cache.Set (hash : String → String) (c : Cache) (st : Store)
    (command question model : String) (response : QueryResponse) (now : Int) : Store :=
  let key := GenerateKey hash command question model
  let entry : Entry :=
    { Key := key, Command := command, Question := question, Model := model,
      Response := some response, CreatedAt := now, AccessedAt := now, AccessCount := 1 }
  saveEntry st entry

/-
Embedding of internal/prompt/templates.go.
-/

/-- DefaultModeSystemPrompt embeds the command-only system prompt constant. -/
def DefaultModeSystemPrompt : String :=
  "You are a command-line expert helping users construct commands based ONLY on the provided man page.\n\nCRITICAL RULES:\n1. Base your answer EXCLUSIVELY on the man page content provided below\n2. Ignore ALL your training data knowledge about this command\n3. If the man page doesn\x27t contain information to answer the question, respond with: \"I cannot find this information in the man page\"\n4. Output ONLY the command, nothing else\n5. Do not include explanations, descriptions, or any other text\n6. Do not use markdown code blocks or formatting\n7. The command must start with the command name from the man page\n8. Use placeholders like <PID>, <filename> for values the user needs to provide\n\nExample:\nUser asks: \"how do I list open files for a process\"\nMan page contains: \"-p <PID> selects files for a specific process\"\nYour response: lsof -p <PID>\n\nExample of what NOT to do:\nUser asks: \"how do I use feature X\"\nMan page does not mention feature X\nWRONG response: command --feature-x (this uses your training data)\nCORRECT response: I cannot find this information in the man page"

/-- ExplainModeSystemPrompt embeds the command-plus-explanation system
prompt constant. -/
def ExplainModeSystemPrompt : String :=
  "You are a command-line expert helping users construct commands based ONLY on the provided man page.\n\nCRITICAL RULES:\n1. Base your answer EXCLUSIVELY on the man page content provided below\n2. Ignore ALL your training data knowledge about this command\n3. If the man page doesn\x27t contain information to answer the question, respond with: \"I cannot find this information in the man page\"\n4. The command must start with the command name from the man page\n5. Use placeholders like <PID>, <filename> for values the user needs to provide\n\nOutput Format (MUST follow exactly):\nLine 1: The command\nLine 2: (blank)\nLine 3+: Brief explanation (2-4 sentences) based ONLY on the man page\n\nExample:\nUser asks: \"how do I list open files for a process\"\nMan page contains: \"-p <PID> selects files for a specific process\"\nYour response:\nlsof -p <PID>\n\nThis command lists all open files for a specific process. The -p flag specifies the process ID to inspect.\n\nExample of what NOT to do:\nUser asks: \"how do I use feature X\"\nMan page does not mention feature X\nWRONG: command --feature-x (explanation from your training data)\nCORRECT: I cannot find this information in the man page"

/-- strictRetryPromptOf embeds StrictRetryPromptTemplate with the tool
name interpolated for the percent-s verb. -/
def strictRetryPromptOf (command : String) : String :=
  "Your previous response was not a valid command. Please respond with ONLY the command syntax, starting with \x27"
    ++ command
    ++ "\x27. No explanations, no formatting, just the command."

/-- Builder embeds prompt.Builder. -/
structure Builder where
  command : String
  manPage : String
  question : String
  explainMode : Bool
deriving DecidableEq, Repr

/-- SystemPrompt embeds Builder.SystemPrompt. -/
def Builder.SystemPrompt (b : Builder) : String :=
  if b.explainMode then ExplainModeSystemPrompt else DefaultModeSystemPrompt

/-- UserPrompt embeds Builder.UserPrompt: the man page and the question
formatted into the fixed frame. -/
def Builder.UserPrompt (b : Builder) : String :=
  "Man page for \x27" ++ b.command ++ "\x27:\n\n" ++ b.manPage
    ++ "\n\nUser question: " ++ b.question ++ "\n\nProvide the command:"

/-- StrictRetryPrompt embeds Builder.StrictRetryPrompt. -/
def Builder.StrictRetryPrompt (b : Builder) : String :=
  strictRetryPromptOf b.command

/-
Embedding of the orchestration in internal/cli/commands.go. A provider is
modelled as a deterministic total function from request to response (its
blocking Query method); the number of provider calls each function makes
is returned explicitly so that retry counting is visible. ExecuteQuery of
internal/cli/query_executor.go is represented by the provider function
itself: both of its strategies return one QueryResponse for the request
(their equivalence is the subject of the streaming theorems below).
-/

/-- originalRequest is the llm.QueryRequest literal built in
queryWithCache: profile model, both prompts from the builder, 2000 max
tokens, temperature 0.1, the detected context window, and zero-valued
stop sequences. -/
def originalRequest (b : Builder) (model : String) (contextWindow : Int) : QueryRequest :=
  { Model := model, SystemPrompt := b.SystemPrompt, UserPrompt := b.UserPrompt,
    MaxTokens := 2000, Temperature := (1 : ℚ) / 10,
    ContextWindow := contextWindow, StopSequences := [] }

/-- retryRequest is the llm.QueryRequest literal built in parseAndValidate
for the strict retry: same model, system prompt, max tokens and
temperature, the strict retry user prompt, and zero values for the context
window and stop sequences. -/
def retryRequest (b : Builder) (model : String) : QueryRequest :=
  { Model := model, SystemPrompt := b.SystemPrompt, UserPrompt := b.StrictRetryPrompt,
    MaxTokens := 2000, Temperature := (1 : ℚ) / 10,
    ContextWindow := 0, StopSequences := [] }

/-- freshQuery is the cache-miss tail of queryWithCache: build the
request, call the provider, save the response to the cache (best-effort,
its error ignored), and return the response. -/
def freshQuery (hash : String → String) (cfg : Cache) (provider : QueryRequest → QueryResponse)
    (b : Builder) (model : String) (contextWindow : Int) (st : Store)
    (command question : String) (now : Int) : QueryResponse × Store :=
  let req := originalRequest b model contextWindow
  let resp := provider req
  let st2 := Cache.Set hash cfg st command question model resp now
  (resp, st2)

/-- queryWithCache embeds cli.queryWithCache: unless the no-cache flag is
set, consult the cache first and return a hit; otherwise query the
provider and write the response to the cache before returning it. -/
def queryWithCache (hash : String → String) (cfg : Cache) (provider : QueryRequest → QueryResponse)
    (b : Builder) (model : String) (noCache : Bool) (contextWindow : Int) (st : Store)
    (command question : String) (now : Int) : QueryResponse × Store :=
  if noCache then
    freshQuery hash cfg provider b model contextWindow st command question now
  else
    match Cache.Get hash cfg st command question model now with
    | (some cached, st1) => (cached, st1)
    | (none, st1) => freshQuery hash cfg provider b model contextWindow st1 command question now

/-- PVResult models the pair returned by cli.parseAndValidate: a parsed
response or a terminal error message. -/
inductive PVResult where
  | ok (parsed : ParsedResponse)
  | err (msg : String)
deriving DecidableEq, Repr

/-- parseAndValidate embeds cli.parseAndValidate: parse the response; on
an invalid parse of a non-cached response issue exactly one strict retry
through the provider, parse it with the same parser, fail terminally if
still invalid and otherwise cache the retry response; an invalid parse of
a cached response is an immediate terminal error. The final component
counts the provider calls made (the retries). -/
def parseAndValidate (hash : String → String) (cfg : Cache)
    (provider : QueryRequest → QueryResponse) (b : Builder) (resp : QueryResponse)
    (command : String) (explainFlag : Bool) (model question : String) (st : Store)
    (now : Int) : PVResult × Store × Nat :=
  let responseParser : Parser := { commandName := command, explainMode := explainFlag }
  let parsed := responseParser.Parse resp.Content
  if !parsed.Valid && !resp.Cached then
    let req := retryRequest b model
    let retryResp := provider req
    let parsed2 := responseParser.Parse retryResp.Content
    if !parsed2.Valid then
      (PVResult.err "unable to generate valid command", st, 1)
    else
      let st2 := Cache.Set hash cfg st command question model retryResp now
      (PVResult.ok parsed2, st2, 1)
  else if !parsed.Valid && resp.Cached then
    (PVResult.err "cached response invalid", st, 0)
  else
    (PVResult.ok parsed, st, 0)

/-- runQuery is the query-then-validate slice of cli.run: obtain a
response through the cache, then parse and validate it with the bounded
retry. -/
def runQuery (hash : String → String) (cfg : Cache)
    (provider : QueryRequest → QueryResponse) (b : Builder) (model : String)
    (noCache : Bool) (contextWindow : Int) (st : Store) (command question : String)
    (explainFlag : Bool) (now : Int) : PVResult × Store × Nat :=
  let r := queryWithCache hash cfg provider b model noCache contextWindow st command question now
  parseAndValidate hash cfg provider b r.1 command explainFlag model question r.2 now

/-
Embedding of internal/llm/ollama.go and executeStreamingQuery of
internal/cli/query_executor.go. A fixed deterministic backend is the
finite sequence of api.ChatResponse messages the Ollama client delivers to
the callback; the channel handoff is modelled as the list of chunks the
producer goroutine sends, consumed in order (the recommended tagged-union
simplification of the two-channel protocol). Only the error-free path is
modelled: on an error neither path returns a response.
-/

/-- ChatResponse models api.ChatResponse as far as the source reads it:
the incremental message content, the done flag, and the two token counts
that are only meaningful on the final message. -/
structure ChatResponse where
  content : String
  done : Bool
  promptEvalCount : Int
  evalCount : Int
deriving DecidableEq, Repr

/-- ollamaBlockingLoop is the callback fold of OllamaProvider.Query: every
message content is appended to the accumulated text, and each done
message overwrites the token counts. -/
def ollamaBlockingLoop : List ChatResponse → String → Int × Int → String × (Int × Int)
  | [], acc, toks => (acc, toks)
  | r :: rest, acc, toks =>
    ollamaBlockingLoop rest (acc ++ r.content)
      (if r.done then (r.promptEvalCount, r.evalCount) else toks)

/-- ollamaQuery embeds OllamaProvider.Query over a fixed backend
message sequence: accumulate all content, take the token counts of the
done message, and fill in the model and provider provenance. -/
def ollamaQuery (req : QueryRequest) (backend : List ChatResponse) : QueryResponse :=
  let r := ollamaBlockingLoop backend "" (0, 0)
  { Content := r.1, TokensInput := r.2.1, TokensOutput := r.2.2,
    Model := req.Model, Provider := "ollama", Cached := false }

/-- ollamaStreamChunks embeds the producer goroutine of
OllamaProvider.StreamQuery: a done message becomes the terminal chunk
carrying the token counts and empty content; a non-done message with
non-empty content becomes a content chunk; empty non-done messages send
nothing. -/
def ollamaStreamChunks : List ChatResponse → List StreamChunk
  | [] => []
  | r :: rest =>
    if r.done then
      ⟨"", true, r.promptEvalCount, r.evalCount⟩ :: ollamaStreamChunks rest
    else if r.content != "" then
      ⟨r.content, false, 0, 0⟩ :: ollamaStreamChunks rest
    else
      ollamaStreamChunks rest

/-- streamLoop is the consumer loop of cli.executeStreamingQuery on the
error-free path: accumulate the content of chunks until the terminal
chunk arrives, capture its token counts and stop; a closed channel ends
the loop with the token counts still at their zero values. -/
def streamLoop : List StreamChunk → String → Int × Int → String × (Int × Int)
  | [], acc, toks => (acc, toks)
  | c :: rest, acc, toks =>
    if c.IsComplete then (acc, (c.TokensInput, c.TokensOutput))
    else streamLoop rest (acc ++ c.Content) toks

/-- executeStreamingQuery embeds cli.executeStreamingQuery on the
error-free path: drive the chunk sequence, then synthesize one
QueryResponse from the accumulated content, the captured token counts,
the request model and the provider name. -/
def executeStreamingQuery (providerName : String) (req : QueryRequest)
    (chunks : List StreamChunk) : QueryResponse :=
  let r := streamLoop chunks "" (0, 0)
  { Content := r.1, TokensInput := r.2.1, TokensOutput := r.2.2,
    Model := req.Model, Provider := providerName, Cached := false }

/-
Theorems. Shared helper lemmas come first; the claim theorems, their
witnesses and counterexamples follow, one group per claim.
-/

/-- appendSepInj is the separator cancellation law: when a separator
character occurs in neither left part, the decomposition of a list around
a separator occurrence is unique. -/
theorem appendSepInj (x : Char) :
    ∀ a b s t : List Char, x ∉ a → x ∉ b →
      a ++ x :: s = b ++ x :: t → a = b ∧ s = t := by
  intro a
  induction a with
  | nil =>
    intro b s t _ hb h
    cases b with
    | nil =>
      simp only [List.nil_append, List.cons.injEq] at h
      exact ⟨rfl, h.2⟩
    | cons y bs =>
      simp only [List.nil_append, List.cons_append, List.cons.injEq] at h
      obtain ⟨h1, _⟩ := h
      subst h1
      exact absurd (List.mem_cons_self x bs) hb
  | cons y as ih =>
    intro b s t ha hb h
    cases b with
    | nil =>
      simp only [List.cons_append, List.nil_append, List.cons.injEq] at h
      obtain ⟨h1, _⟩ := h
      subst h1
      exact absurd (List.mem_cons_self y as) ha
    | cons z bs =>
      simp only [List.cons_append, List.cons.injEq] at h
      obtain ⟨h1, h2⟩ := h
      have ha2 : x ∉ as := fun hm => ha (List.mem_cons_of_mem _ hm)
      have hb2 : x ∉ bs := fun hm => hb (List.mem_cons_of_mem _ hm)
      obtain ⟨e1, e2⟩ := ih bs s t ha2 hb2 h2
      exact ⟨by rw [h1, e1], e2⟩

/-- generateKeyInputData presents the digest input as a character list
split by the two colon delimiters. -/
theorem generateKeyInputData (c q m : String) :
    (GenerateKeyInput c q m).data = c.data ++ ':' :: (q.data ++ ':' :: m.data) := by
  have hc : (":" : String).data = [':'] := rfl
  simp only [GenerateKeyInput, strDataAppend, hc]
  simp [List.append_assoc]

/-- C1 (corrected). The fingerprint is a pure deterministic function of
the triple, but the colon delimiter does occur in real fields (Ollama
model ids such as llama3.2:latest contain colons, and question text is
arbitrary), so distinct triples can share a digest input. The digest input
is injective in the triple provided the tool name and the question are
colon-free: two colon-free-fronted triples with the same digest input are
equal. -/
theorem generateKeyInput_injective_of_colonFree (c q m c2 q2 m2 : String)
    (hc : ':' ∉ c.data) (hc2 : ':' ∉ c2.data) (hq : ':' ∉ q.data) (hq2 : ':' ∉ q2.data)
    (h : GenerateKeyInput c q m = GenerateKeyInput c2 q2 m2) :
    c = c2 ∧ q = q2 ∧ m = m2 := by
  have hd := congrArg String.data h
  rw [generateKeyInputData, generateKeyInputData] at hd
  obtain ⟨e1, e2⟩ := appendSepInj ':' c.data c2.data _ _ hc hc2 hd
  obtain ⟨e3, e4⟩ := appendSepInj ':' q.data q2.data _ _ hq hq2 e2
  exact ⟨strExt e1, strExt e3, strExt e4⟩

/-- C1 witness: the injectivity theorem applied at a concrete colon-free
input. -/
theorem generateKeyInput_injective_of_colonFree_witness :
    (':' ∉ "ls".data) ∧ ("ls" = "ls" ∧ "how" = "how" ∧ "m" = "m") :=
  ⟨by decide,
    generateKeyInput_injective_of_colonFree "ls" "how" "m" "ls" "how" "m"
      (by decide) (by decide) (by decide) (by decide) rfl⟩

/-- C1 counterexample: two distinct triples whose digest inputs coincide,
so GenerateKey maps them to the same fingerprint whatever the hash is --
here shown with the identity in place of the hash, so the collision is in
the encoding, not the digest. -/
theorem generateKey_collision :
    GenerateKey id "ls" "a:b" "m" = GenerateKey id "ls" "a" "b:m" ∧
      ("ls", "a:b", "m") ≠ (("ls", "a", "b:m") : String × String × String) := by
  exact ⟨rfl, by decide⟩

/-- parseDefaultMode_valid_hasPre: structural lemma behind C3. Every
result parseDefaultMode accepts carries a command that starts with the
configured command name, because both accepting paths are guarded by a
string-prefix test. -/
theorem parseDefaultMode_valid_hasPre (p : Parser) (resp : String)
    (h : (parseDefaultMode p resp).Valid = true) :
    goHasPre (parseDefaultMode p resp).Command p.commandName = true := by
  revert h
  unfold parseDefaultMode
  split
  · intro h; simp at h
  · simp only []
    split
    · intro h; simp at h
    · rename_i hp
      split
      · split
        · rename_i line hline
          intro _
          have := List.find?_some hline
          simp only [Bool.and_eq_true] at this
          exact this.2
        · intro h; simp at h
      · intro _
        simpa using hp

/-- C3 (corrected). In command-only mode every accepted raw text yields a
command that begins with the tool name as a string prefix. The original
claim is stronger -- first whitespace-delimited token equal to the tool
name -- and that fails: parseDefaultMode tests strings.HasPrefix, not
token equality, so a text whose first token merely extends the tool name
is accepted (see the counterexample). -/
theorem parse_defaultMode_valid_hasPre (tool raw : String)
    (h : (Parser.Parse ⟨tool, false⟩ raw).Valid = true) :
    goHasPre (Parser.Parse ⟨tool, false⟩ raw).Command tool = true :=
  parseDefaultMode_valid_hasPre ⟨tool, false⟩ (goTrimSpace raw) h

/-- C3 witness: the prefix property at a concrete accepted input. -/
theorem parse_defaultMode_valid_hasPre_witness :
    (Parser.Parse ⟨"ls", false⟩ "ls -lhS").Valid = true ∧
      goHasPre (Parser.Parse ⟨"ls", false⟩ "ls -lhS").Command "ls" = true :=
  ⟨by decide, parse_defaultMode_valid_hasPre "ls" "ls -lhS" (by decide)⟩

/-- C3 counterexample: with tool name ls, the raw text lsof -p 1 is
accepted as valid although its first whitespace-delimited token is lsof,
a different word, which the claim says must be rejected. -/
theorem parse_accepts_nonTokenMatch :
    (Parser.Parse ⟨"ls", false⟩ "lsof -p 1").Valid = true ∧
      firstWhitespaceToken (Parser.Parse ⟨"ls", false⟩ "lsof -p 1").Command ≠ "ls" := by
  decide

/-- C5 (corrected). Multi-line tolerance only applies after the whole
stripped response has already passed the prefix check: when a multi-line
raw text passes the refusal check and its stripped trimmed form starts
with the tool name, Parse returns the first non-empty trimmed line that
starts with the tool name. A multi-line text with a qualifying line but a
non-qualifying first character sequence is rejected outright (see the
counterexample). -/
theorem parse_multiline_first_qualifying (tool raw l : String)
    (h1 : goContains (goTrimSpace raw) refusalSentinel = false)
    (h2 : goHasPre (goTrimSpace (stripMarkdownCodeBlocks (goTrimSpace raw))) tool = true)
    (h3 : 1 < (goSplitNewline (goTrimSpace (stripMarkdownCodeBlocks (goTrimSpace raw)))).length)
    (h4 : ((goSplitNewline (goTrimSpace (stripMarkdownCodeBlocks (goTrimSpace raw)))).map
        goTrimSpace).find? (fun s => s != "" && goHasPre s tool) = some l) :
    Parser.Parse ⟨tool, false⟩ raw = ⟨l, "", true, none⟩ := by
  show parseDefaultMode ⟨tool, false⟩ (goTrimSpace raw) = _
  unfold parseDefaultMode
  dsimp only
  split
  · rename_i hcontra
    rw [h1] at hcontra
    exact absurd hcontra Bool.false_ne_true
  · split
    · rename_i hcontra
      rw [h2] at hcontra
      exact absurd hcontra (by decide)
    · rw [h4]

/-- C5 witness: a two-line response whose first line qualifies. -/
theorem parse_multiline_first_qualifying_witness :
    Parser.Parse ⟨"ls", false⟩ "ls -la\nsecond line" = ⟨"ls -la", "", true, none⟩ :=
  parse_multiline_first_qualifying "ls" "ls -la\nsecond line" "ls -la"
    (by decide) (by decide) (by decide) (by decide)

/-- C5 counterexample: a multi-line response that contains a non-empty
line starting with the tool name (the scan the code itself would run
finds ls -la), yet Parse rejects it because the response as a whole does
not start with the tool name. -/
theorem parse_multiline_preamble_rejected :
    (Parser.Parse ⟨"ls", false⟩ "Here:\nls -la").Valid = false ∧
      ((goSplitNewline (goTrimSpace (stripMarkdownCodeBlocks (goTrimSpace "Here:\nls -la")))).map
          goTrimSpace).find? (fun s => s != "" && goHasPre s "ls") = some "ls -la" := by
  decide

/-- C4 (corrected). A cache file whose content fails to unmarshal makes
Get report a miss and surface no error, but the offending file is NOT
removed: the decode-failure path returns before any os.Remove call, so
the store is unchanged. Only expired entries and well-formed entries with
a nil response are deleted on access. -/
theorem get_corrupt_is_silent_miss_no_removal (hash : String → String) (c : Cache) (st : Store)
    (command question model : String) (now : Int)
    (h : lookupFile st (GenerateKey hash command question model) = some FileContent.corrupt) :
    Cache.Get hash c st command question model now = (none, st) := by
  unfold Cache.Get
  dsimp only
  rw [h]

/-- C4 witness: the corrupt-entry theorem at a concrete store. -/
theorem get_corrupt_witness :
    lookupFile [(GenerateKey id "a" "b" "c", FileContent.corrupt)] (GenerateKey id "a" "b" "c")
        = some FileContent.corrupt ∧
      Cache.Get id ⟨1⟩ [(GenerateKey id "a" "b" "c", FileContent.corrupt)] "a" "b" "c" 7
        = (none, [(GenerateKey id "a" "b" "c", FileContent.corrupt)]) :=
  ⟨by decide, get_corrupt_is_silent_miss_no_removal id ⟨1⟩ _ "a" "b" "c" 7 (by decide)⟩

/-- C4 counterexample: after a Get on a fingerprint whose file is
unparsable the call reports a miss, yet the file is still present in the
store, contradicting the claim that it is removed. -/
theorem get_corrupt_leaves_file :
    (Cache.Get id ⟨30⟩ [(GenerateKey id "ls" "q" "m", FileContent.corrupt)] "ls" "q" "m" 0).1 = none ∧
      lookupFile
          (Cache.Get id ⟨30⟩ [(GenerateKey id "ls" "q" "m", FileContent.corrupt)] "ls" "q" "m" 0).2
          (GenerateKey id "ls" "q" "m") = some FileContent.corrupt := by
  decide

/-- C6 (confirmed). Set followed by Get on the same triple, with no
intervening expiry, returns a response equal to the stored one in every
field except the cache flag, which is true. -/
theorem cache_roundtrip (hash : String → String) (c : Cache) (st : Store)
    (t q m : String) (R : QueryResponse) (tW tR : Int)
    (hexp : c.isExpired tW tR = false) :
    (Cache.Get hash c (Cache.Set hash c st t q m R tW) t q m tR).1
      = some { R with Cached := true } := by
  simp only [Cache.Get, Cache.Set, saveEntry, setFile, lookupFile, beq_self_eq_true, if_true, hexp]
  rfl

/-- C6 witness: the round trip at a concrete response. -/
theorem cache_roundtrip_witness :
    (⟨30⟩ : Cache).isExpired 5 6 = false ∧
      (Cache.Get id ⟨30⟩ (Cache.Set id ⟨30⟩ [] "ls" "q" "m" ⟨"ls -la", 3, 4, "m", "openai", false⟩ 5)
          "ls" "q" "m" 6).1
        = some ⟨"ls -la", 3, 4, "m", "openai", true⟩ :=
  ⟨by decide, cache_roundtrip id ⟨30⟩ [] "ls" "q" "m" ⟨"ls -la", 3, 4, "m", "openai", false⟩ 5 6 (by decide)⟩

/-- C8 (confirmed). Against a provider whose responses always fail
validation, a non-cached invalid response leads to exactly one retry call
and a terminal error; the call counter is exactly one, so no second retry
can occur, and the failed retry is terminal. -/
theorem single_retry_then_error (hash : String → String) (cfg : Cache)
    (provider : QueryRequest → QueryResponse) (b : Builder) (resp : QueryResponse)
    (command : String) (explainFlag : Bool) (model question : String) (st : Store) (now : Int)
    (hAll : ∀ req : QueryRequest,
      ((Parser.mk command explainFlag).Parse (provider req).Content).Valid = false)
    (h0 : ((Parser.mk command explainFlag).Parse resp.Content).Valid = false)
    (hc : resp.Cached = false) :
    parseAndValidate hash cfg provider b resp command explainFlag model question st now
      = (PVResult.err "unable to generate valid command", st, 1) := by
  simp only [parseAndValidate, h0, hc, hAll, Bool.not_false, Bool.and_self, if_true]

/-- C8 witness: a constant always-invalid provider stub. -/
theorem single_retry_then_error_witness :
    parseAndValidate id ⟨30⟩ (fun _ => ⟨"garbage", 0, 0, "m", "ollama", false⟩)
        ⟨"ls", "mp", "how", false⟩ ⟨"bad", 0, 0, "m", "ollama", false⟩
        "ls" false "m" "how" [] 0
      = (PVResult.err "unable to generate valid command", [], 1) :=
  single_retry_then_error id ⟨30⟩ (fun _ => ⟨"garbage", 0, 0, "m", "ollama", false⟩)
    ⟨"ls", "mp", "how", false⟩ ⟨"bad", 0, 0, "m", "ollama", false⟩
    "ls" false "m" "how" [] 0
    (fun _ => (by decide : ((Parser.mk "ls" false).Parse "garbage").Valid = false))
    (by decide) rfl

/-- C9 (confirmed). An invalid parse of a response whose Cached flag is
true is an immediate terminal error with zero provider calls. -/
theorem cached_invalid_no_retry (hash : String → String) (cfg : Cache)
    (provider : QueryRequest → QueryResponse) (b : Builder) (resp : QueryResponse)
    (command : String) (explainFlag : Bool) (model question : String) (st : Store) (now : Int)
    (h0 : ((Parser.mk command explainFlag).Parse resp.Content).Valid = false)
    (hc : resp.Cached = true) :
    parseAndValidate hash cfg provider b resp command explainFlag model question st now
      = (PVResult.err "cached response invalid", st, 0) := by
  simp only [parseAndValidate, h0, hc, Bool.not_false, Bool.not_true, Bool.and_false,
    Bool.and_true, Bool.and_self, if_false, if_true]
  rfl

/-- C9 witness: a cached invalid response at concrete inputs. -/
theorem cached_invalid_no_retry_witness :
    parseAndValidate id ⟨30⟩ (fun _ => ⟨"garbage", 0, 0, "m", "ollama", false⟩)
        ⟨"ls", "mp", "how", false⟩ ⟨"bad", 0, 0, "m", "ollama", true⟩
        "ls" false "m" "how" [] 0
      = (PVResult.err "cached response invalid", [], 0) :=
  cached_invalid_no_retry id ⟨30⟩ (fun _ => ⟨"garbage", 0, 0, "m", "ollama", false⟩)
    ⟨"ls", "mp", "how", false⟩ ⟨"bad", 0, 0, "m", "ollama", true⟩
    "ls" false "m" "how" [] 0 (by decide) rfl

/-- C2 (corrected). The cache is written immediately after the provider
delivers a fresh response and before validation runs: on a cache miss, a
query whose response fails validation and whose retry also fails still
terminates with the original provider response stored at the fingerprint.
Validation failure does not prevent the cache write; only a successful
retry overwrites it. -/
theorem cache_written_before_validation (hash : String → String) (cfg : Cache)
    (provider : QueryRequest → QueryResponse) (b : Builder) (model : String)
    (contextWindow : Int) (st : Store) (command question : String) (explainFlag : Bool) (now : Int)
    (hmiss : lookupFile st (GenerateKey hash command question model) = none)
    (h0 : ((Parser.mk command explainFlag).Parse
      (provider (originalRequest b model contextWindow)).Content).Valid = false)
    (hc : (provider (originalRequest b model contextWindow)).Cached = false)
    (h1 : ((Parser.mk command explainFlag).Parse
      (provider (retryRequest b model)).Content).Valid = false) :
    runQuery hash cfg provider b model false contextWindow st command question explainFlag now
      = (PVResult.err "unable to generate valid command",
          Cache.Set hash cfg st command question model
            (provider (originalRequest b model contextWindow)) now, 1) := by
  unfold runQuery queryWithCache Cache.Get
  dsimp only
  rw [hmiss]
  unfold freshQuery
  dsimp only
  simp only [Bool.false_eq_true, if_false, parseAndValidate, h0, hc, h1, Bool.not_false,
    Bool.and_self, if_true]

/-- C2 witness: the before-validation cache write at concrete inputs. -/
theorem cache_written_before_validation_witness :
    runQuery id ⟨30⟩ (fun _ => ⟨"garbage", 0, 0, "m", "ollama", false⟩)
        ⟨"ls", "mp", "how", false⟩ "m" false 0 [] "ls" "how" false 5
      = (PVResult.err "unable to generate valid command",
          Cache.Set id ⟨30⟩ [] "ls" "how" "m" ⟨"garbage", 0, 0, "m", "ollama", false⟩ 5, 1) :=
  cache_written_before_validation id ⟨30⟩ (fun _ => ⟨"garbage", 0, 0, "m", "ollama", false⟩)
    ⟨"ls", "mp", "how", false⟩ "m" 0 [] "ls" "how" false 5
    (by decide)
    ((by decide : ((Parser.mk "ls" false).Parse "garbage").Valid = false))
    rfl
    ((by decide : ((Parser.mk "ls" false).Parse "garbage").Valid = false))

/-- C2 counterexample: a query whose provider response fails validation
and whose retry also fails nevertheless leaves a cache entry at the
fingerprint, contradicting the claim that no entry is written. -/
theorem failed_validation_still_cached :
    (runQuery id ⟨30⟩ (fun _ => ⟨"garbage", 0, 0, "m", "ollama", false⟩)
        ⟨"ls", "mp", "how", false⟩ "m" false 0 [] "ls" "how" false 5).1
      = PVResult.err "unable to generate valid command" ∧
      (lookupFile
          (runQuery id ⟨30⟩ (fun _ => ⟨"garbage", 0, 0, "m", "ollama", false⟩)
            ⟨"ls", "mp", "how", false⟩ "m" false 0 [] "ls" "how" false 5).2.1
          (GenerateKey id "ls" "how" "m")).isSome = true := by
  decide

/-- strAppendEmpty: appending the empty string is the identity. -/
theorem strAppendEmpty (s : String) : s ++ "" = s := by
  apply strExt
  have h : ("" : String).data = [] := rfl
  simp [strDataAppend, h]

/-- stream_eq_blocking_loop: the streaming consumer over the chunks the
Ollama producer emits computes the same accumulator and token state as
the blocking callback fold, for any backend stream whose done message is
final, unique, and textless. -/
theorem stream_eq_blocking_loop (fin : ChatResponse)
    (hdone : fin.done = true) (hempty : fin.content = "") :
    ∀ (body : List ChatResponse) (acc : String) (toks : Int × Int),
      (∀ r ∈ body, r.done = false) →
      streamLoop (ollamaStreamChunks (body ++ [fin])) acc toks
        = ollamaBlockingLoop (body ++ [fin]) acc toks := by
  intro body
  induction body with
  | nil =>
    intro acc toks _
    simp only [List.nil_append]
    unfold ollamaStreamChunks ollamaBlockingLoop streamLoop
    rw [hdone, hempty]
    simp only [if_true, if_pos rfl]
    unfold ollamaBlockingLoop
    rw [strAppendEmpty]
  | cons r body ih =>
    intro acc toks hb
    have hr : r.done = false := hb r (List.mem_cons_self r body)
    have hb2 : ∀ x ∈ body, x.done = false := fun x hx => hb x (List.mem_cons_of_mem r hx)
    simp only [List.cons_append]
    unfold ollamaStreamChunks ollamaBlockingLoop
    rw [hr]
    by_cases hcont : r.content = ""
    · rw [hcont]
      simp only [Bool.false_eq_true, if_false, bne_self_eq_false]
      rw [strAppendEmpty]
      exact ih acc toks hb2
    · have hne : (r.content != "") = true := by
        simp [bne, hcont]
      rw [hne]
      simp only [Bool.false_eq_true, if_false, if_true]
      unfold streamLoop
      simp only [Bool.false_eq_true, if_false]
      exact ih (acc ++ r.content) toks hb2

/-- C7 (corrected). For a fixed deterministic backend whose message
stream is well formed in the Ollama sense -- the done-flagged message is
last, unique, and carries no text -- the streaming execution path yields
exactly the blocking QueryResponse (content, both token counts, model,
provider and cache flag). The unconditional claim fails: the blocking
fold also accumulates the done message content, which the streaming path
never sees (see the counterexample). -/
theorem streaming_equals_blocking (req : QueryRequest) (body : List ChatResponse)
    (fin : ChatResponse) (hbody : ∀ r ∈ body, r.done = false)
    (hdone : fin.done = true) (hempty : fin.content = "") :
    executeStreamingQuery "ollama" req (ollamaStreamChunks (body ++ [fin]))
      = ollamaQuery req (body ++ [fin]) := by
  unfold executeStreamingQuery ollamaQuery
  rw [stream_eq_blocking_loop fin hdone hempty body "" (0, 0) hbody]

/-- C7 witness: a two-message stream followed by a textless done message. -/
theorem streaming_equals_blocking_witness :
    (∀ r ∈ [(⟨"he", false, 0, 0⟩ : ChatResponse), ⟨"llo", false, 0, 0⟩], r.done = false) ∧
      executeStreamingQuery "ollama" ⟨"m", "s", "u", 10, 0, 0, []⟩
          (ollamaStreamChunks ([⟨"he", false, 0, 0⟩, ⟨"llo", false, 0, 0⟩] ++ [⟨"", true, 5, 7⟩]))
        = ollamaQuery ⟨"m", "s", "u", 10, 0, 0, []⟩
            ([⟨"he", false, 0, 0⟩, ⟨"llo", false, 0, 0⟩] ++ [⟨"", true, 5, 7⟩]) :=
  ⟨by decide,
    streaming_equals_blocking ⟨"m", "s", "u", 10, 0, 0, []⟩
      [⟨"he", false, 0, 0⟩, ⟨"llo", false, 0, 0⟩] ⟨"", true, 5, 7⟩ (by decide) rfl rfl⟩

/-- C7 counterexample: a backend whose single done message carries text.
The blocking path returns that text as content while the streaming path
returns the empty string, so the two paths differ. -/
theorem streaming_differs_on_terminal_content :
    (executeStreamingQuery "ollama" ⟨"m", "s", "u", 10, 0, 0, []⟩
        (ollamaStreamChunks [⟨"x", true, 1, 2⟩])).Content
      ≠ (ollamaQuery ⟨"m", "s", "u", 10, 0, 0, []⟩ [⟨"x", true, 1, 2⟩]).Content := by
  decide

/-- C10 (confirmed). The strict-retry request equals the original request
in model, system prompt, max tokens and temperature; its context window
and stop sequences are left at their zero values; and its user prompt is
exactly the strict-retry template with the tool name interpolated --
independent of the man page and the question, which therefore cannot flow
into it. -/
theorem retry_request_shape (b : Builder) (model : String) (contextWindow : Int) :
    (retryRequest b model).Model = (originalRequest b model contextWindow).Model ∧
      (retryRequest b model).SystemPrompt = (originalRequest b model contextWindow).SystemPrompt ∧
      (retryRequest b model).MaxTokens = (originalRequest b model contextWindow).MaxTokens ∧
      (retryRequest b model).Temperature = (originalRequest b model contextWindow).Temperature ∧
      (retryRequest b model).ContextWindow = 0 ∧
      (retryRequest b model).StopSequences = [] ∧
      (retryRequest b model).UserPrompt = strictRetryPromptOf b.command ∧
      (∀ manPage question : String,
        (retryRequest { b with manPage := manPage, question := question } model).UserPrompt
          = (retryRequest b model).UserPrompt) :=
  ⟨rfl, rfl, rfl, rfl, rfl, rfl, rfl, fun _ _ => rfl⟩

end Heyman
